import Mathlib

/-!
Verification of the orchestration/tooling core of the `opactorai/clovable`
repository against its natural-language specification.

The executable code present in the repository sources is:
  * `scripts/setup-env.js` — environment setup: `.env` parsing, port
    availability probing and port search (`isPortAvailable`,
    `findAvailablePort`, `setupEnvironment`);
  * `apps/web/scripts/dev.js` — the Next.js dev-server wrapper and its
    child-exit handler;
  * `scripts/run.sh`, a Dockerfile and deployment documentation.

The Session Relay and the Project State Machine described by the
specification have no implementation among the provided sources; where a
claim is decided by those components they are modelled from the
specification text, and the corresponding definitions say so in their doc
comments.

Conventions of the embedding:
  * JavaScript numbers that matter here are integers or `NaN`; they are
    modelled as `Option Int` with `none` playing the role of `NaN`.
  * The OS-level port probe `isPortAvailable` performs I/O (`lsof`); it is
    modelled as an explicit availability predicate `avail : Int → Bool`
    passed to the functions that call it.
  * The unbounded `while` loop of `findAvailablePort` is embedded with
    explicit fuel; `none` means the loop has not terminated within the
    given fuel.
  * String processing is done structurally over `List Char` so that every
    definition evaluates inside the kernel.
-/

/-! ## Port search (`scripts/setup-env.js`, lines 56–62)

```js
async function findAvailablePort(startPort) {
  let port = startPort;
  while (!(await isPortAvailable(port))) {
    port++;
  }
  return port;
}
```
-/

/-- Fueled embedding of `findAvailablePort` from `scripts/setup-env.js`:
starting at `port`, the first port `p` with `avail p = true` is returned,
probing upwards one port at a time. `none` means the loop did not finish
within `fuel` iterations. The source loop has no upper bound and no error
exit of any kind. -/
def findAvailablePort (avail : Int → Bool) : Nat → Int → Option Int
  | 0, _ => none
  | fuel + 1, port => if avail port then some port else findAvailablePort avail fuel (port + 1)

/-! ## Port selection in `setupEnvironment` (`scripts/setup-env.js`, lines 102–117)

```js
if (!await isPortAvailable(apiPort)) {
  const newApiPort = await findAvailablePort(apiPort);
  apiPort = newApiPort;
}
if (!await isPortAvailable(webPort)) {
  const newWebPort = await findAvailablePort(webPort);
  webPort = newWebPort;
}
```
Both selections probe the same OS availability state; nothing records the
first selected port as taken before the second selection runs. -/

/-- One selection step of `setupEnvironment`: keep the starting candidate if
it probes available, otherwise run `findAvailablePort` from it. -/
def selectPort (avail : Int → Bool) (fuel : Nat) (start : Int) : Option Int :=
  if avail start then some start else findAvailablePort avail fuel start

/-- `NaN`-aware wrapper for `selectPort`: `parseInt` can produce `NaN`
(modelled `none`); `lsof -i :NaN` errors out, which `isPortAvailable`
reports as available, so a `NaN` candidate is kept unchanged. -/
def selectPortJS (avail : Int → Bool) (fuel : Nat) : Option Int → Option Int
  | some start => selectPort avail fuel start
  | none => none

/-- The pair of ports `setupEnvironment` selects for the API and web
servers, given the availability state and the two starting candidates: both
selections run against the same availability predicate. -/
def selectPorts (avail : Int → Bool) (fuel : Nat) (apiStart webStart : Option Int) :
    Option Int × Option Int :=
  (selectPortJS avail fuel apiStart, selectPortJS avail fuel webStart)

/-! ## `.env` parsing (`scripts/setup-env.js`, lines 76–100)

```js
let apiPort = DEFAULT_API_PORT;            // 8080
let webPort = DEFAULT_WEB_PORT;            // 3000
let existingEnv = {};
if (fs.existsSync(envFile)) {
  const envContent = fs.readFileSync(envFile, 'utf8');
  envContent.split('\n').forEach(line => {
    if (line && !line.startsWith('#')) {
      const [key, value] = line.split('=');
      if (key && value) {
        existingEnv[key.trim()] = value.trim();
      }
    }
  });
  if (existingEnv.API_PORT) { apiPort = parseInt(existingEnv.API_PORT, 10); }
  if (existingEnv.WEB_PORT) { webPort = parseInt(existingEnv.WEB_PORT, 10); }
}
```
All string work is done over `List Char` so the kernel can evaluate it. -/

/-- Split a character list at every occurrence of separator `c`, keeping
empty pieces — the semantics of JavaScript `String.prototype.split` with a
single-character separator. -/
def splitOnChar (c : Char) : List Char → List (List Char)
  | [] => [[]]
  | x :: xs =>
    match splitOnChar c xs with
    | [] => if x = c then [[], []] else [[x]]
    | h :: t => if x = c then [] :: h :: t else (x :: h) :: t

/-- Trim leading and trailing whitespace, as JavaScript `trim`. -/
def trimChars (cs : List Char) : List Char :=
  ((cs.dropWhile Char.isWhitespace).reverse.dropWhile Char.isWhitespace).reverse

/-- One line of the `.env` file, as `setupEnvironment` parses it: skipped if
empty or starting with `#`; split on `=`; the first piece is the key and the
second the value, both required nonempty (JS truthiness of the destructured
pieces) and stored trimmed. -/
def parseEnvLine (line : List Char) : Option (List Char × List Char) :=
  if line = [] then none
  else if line.head? = some '#' then none
  else
    match splitOnChar '=' line with
    | key :: value :: _ =>
      if key = [] then none
      else if value = [] then none
      else some (trimChars key, trimChars value)
    | _ => none

/-- The `existingEnv` object built by `setupEnvironment`: later lines
overwrite earlier ones, as JS object assignment does. -/
def parseEnv (content : String) : List (List Char × List Char) :=
  ((splitOnChar '\n' content.toList).filterMap parseEnvLine)

/-- Property access `existingEnv[k]`: the last stored binding wins;
`none` plays the role of JS `undefined`. -/
def envGet (env : List (List Char × List Char)) (k : List Char) : Option (List Char) :=
  (env.filter (fun p => p.1 = k)).getLast?.map Prod.snd

/-- The guard `if (existingEnv.K)`: a stored empty string is falsy in JS, so
it behaves exactly like an absent key. -/
def envGetTruthy (env : List (List Char × List Char)) (k : List Char) : Option (List Char) :=
  match envGet env k with
  | some v => if v = [] then none else some v
  | none => none

/-- Decimal value of a digit run. -/
def digitsToNat (ds : List Char) : Nat :=
  ds.foldl (fun acc c => acc * 10 + (c.toNat - 48)) 0

/-- JavaScript `parseInt(s, 10)`: skip leading whitespace, read an optional
sign and then the longest run of leading decimal digits; `NaN` (modelled
`none`) when no digit is found. -/
def jsParseInt (s : List Char) : Option Int :=
  let cs := s.dropWhile Char.isWhitespace
  match cs with
  | '-' :: rest =>
    let ds := rest.takeWhile Char.isDigit
    if ds = [] then none else some (-(digitsToNat ds : Int))
  | '+' :: rest =>
    let ds := rest.takeWhile Char.isDigit
    if ds = [] then none else some (digitsToNat ds : Int)
  | _ =>
    let ds := cs.takeWhile Char.isDigit
    if ds = [] then none else some (digitsToNat ds : Int)

/-- Hexadecimal digit test, as radix-16 `parseInt` accepts them. -/
def isHexDigitChar (c : Char) : Bool :=
  c.isDigit || ('a' ≤ c && c ≤ 'f') || ('A' ≤ c && c ≤ 'F')

/-- Hexadecimal value of a run of hex digits. -/
def hexDigitsToNat (ds : List Char) : Nat :=
  ds.foldl (fun acc c =>
    acc * 16 +
      (if c.isDigit then c.toNat - 48
        else if 'a' ≤ c then c.toNat - 87
        else c.toNat - 55)) 0

/-- The part of radix-free `parseInt` after the optional sign: a `0x` or
`0X` prefix switches to hexadecimal and reads the longest run of hex
digits, otherwise the longest run of leading decimal digits is read; no
digit at all is `NaN` (modelled `none`). -/
def jsParseIntAutoBody (cs : List Char) : Option Nat :=
  match cs with
  | '0' :: 'x' :: rest =>
    let ds := rest.takeWhile isHexDigitChar
    if ds = [] then none else some (hexDigitsToNat ds)
  | '0' :: 'X' :: rest =>
    let ds := rest.takeWhile isHexDigitChar
    if ds = [] then none else some (hexDigitsToNat ds)
  | _ =>
    let ds := cs.takeWhile Char.isDigit
    if ds = [] then none else some (digitsToNat ds)

/-- JavaScript `parseInt(s)` with no radix argument, as the `.env` rewrite
guard (line 121) calls it: skip leading whitespace, read an optional sign,
then auto-detect the radix — a `0x`/`0X` prefix means hexadecimal,
otherwise decimal. Unlike the radix-10 `parseInt(s, 10)` used for the
starting candidates (lines 93 and 97), this accepts hex-prefixed values:
`parseInt('0x10')` is 16 while `parseInt('0x10', 10)` is 0. -/
def jsParseIntAuto (s : List Char) : Option Int :=
  let cs := s.dropWhile Char.isWhitespace
  match cs with
  | '-' :: rest => (jsParseIntAutoBody rest).map (fun n => -(n : Int))
  | '+' :: rest => (jsParseIntAutoBody rest).map (fun n => (n : Int))
  | _ => (jsParseIntAutoBody cs).map (fun n => (n : Int))

/-- Radix-free `parseInt` applied to a possibly-`undefined` JS value:
`parseInt(undefined)` is `NaN`. -/
def jsParseIntAutoOpt : Option (List Char) → Option Int
  | some v => jsParseIntAuto v
  | none => none

/-- The starting API-port candidate of `setupEnvironment` (lines 76–95):
the default 8080, replaced by `parseInt(existingEnv.API_PORT, 10)` when the
`.env` file exists and holds a truthy `API_PORT` entry. -/
def initialApiPort (envExists : Bool) (content : String) : Option Int :=
  if envExists then
    match envGetTruthy (parseEnv content) "API_PORT".toList with
    | some v => jsParseInt v
    | none => some 8080
  else some 8080

/-- The starting web-port candidate of `setupEnvironment` (lines 76–99):
the default 3000, replaced by `parseInt(existingEnv.WEB_PORT, 10)` when the
`.env` file exists and holds a truthy `WEB_PORT` entry. -/
def initialWebPort (envExists : Bool) (content : String) : Option Int :=
  if envExists then
    match envGetTruthy (parseEnv content) "WEB_PORT".toList with
    | some v => jsParseInt v
    | none => some 3000
  else some 3000

/-- End-to-end port selection of `setupEnvironment`: parse the `.env`
candidates (lines 76–100), then run both availability-driven selections
(lines 102–117) against one availability state. -/
def setupPorts (avail : Int → Bool) (fuel : Nat) (envExists : Bool) (content : String) :
    Option Int × Option Int :=
  selectPorts avail fuel (initialApiPort envExists content) (initialWebPort envExists content)

/-! ## `.env` rewrite decision (`scripts/setup-env.js`, lines 119–142)

```js
if (!fs.existsSync(envFile) ||
    parseInt(existingEnv.API_PORT) !== apiPort ||
    parseInt(existingEnv.WEB_PORT) !== webPort) {
  fs.writeFileSync(envFile, envContent);
}
...
fs.writeFileSync(webEnvFile, webEnvContent);   // always
```
-/

/-- JavaScript strict inequality `!==` on numbers with `NaN` modelled as
`none`: `NaN !== x` is true for every `x`, including `NaN` itself. -/
def jsStrictNeqNum : Option Int → Option Int → Bool
  | some x, some y => x != y
  | _, _ => true

/-- The guard deciding whether `setupEnvironment` rewrites `.env`
(lines 120–122): missing file, or either recorded port not strictly equal
to the finally selected one. The guard's `parseInt` calls carry no radix
argument, so they are the radix-free, hex-accepting `jsParseIntAuto` — not
the radix-10 parse used for the starting candidates. -/
def shouldRewriteEnv (envExists : Bool) (env : List (List Char × List Char))
    (apiPort webPort : Option Int) : Bool :=
  !envExists
    || jsStrictNeqNum (jsParseIntAutoOpt (envGet env "API_PORT".toList)) apiPort
    || jsStrictNeqNum (jsParseIntAutoOpt (envGet env "WEB_PORT".toList)) webPort

/-- Which files the tail of `setupEnvironment` writes (lines 119–142):
`.env` only when `shouldRewriteEnv` holds, `apps/web/.env.local`
unconditionally. -/
def setupEnvWrites (envExists : Bool) (env : List (List Char × List Char))
    (apiPort webPort : Option Int) : Bool × Bool :=
  (shouldRewriteEnv envExists env apiPort webPort, true)

/-! ## Dev-server exit handler (`apps/web/scripts/dev.js`, lines 55–60)

```js
next.on('exit', (code) => {
  if (code !== 0 && code !== null) {
    console.error(`\n❌ Next.js dev server exited with code ${code}`);
    process.exit(code);
  }
});
```
The handler body contains no `spawn`: the wrapper never restarts the child.
-/

/-- Effects of one run of the `dev.js` exit handler. `exitCode = some c`
means the wrapper itself terminates with code `c`; `respawned` records
whether the handler spawned a replacement child process. -/
structure DevExitEffect where
  exitCode : Option Int
  respawned : Bool
deriving DecidableEq

/-- The `dev.js` child-exit handler: a non-zero, non-null exit code makes
the wrapper exit with that same code; otherwise nothing happens. In both
branches no new child is spawned. -/
def handleChildExit (code : Option Int) : DevExitEffect :=
  match code with
  | some c => if c != 0 then ⟨some c, false⟩ else ⟨none, false⟩
  | none => ⟨none, false⟩

/-! ## Session Relay (modelled from the spec)

The relay implementation is not among the provided source files; the model
below follows spec §4.4 / §3. -/

/-- Modelled from the spec: the Session Relay's per-project state — the
next sequence number to assign for each project and the log of published
events `(projectId, sequence)` in publish order. The relay implementation
is absent from the provided sources; spec §4.4: `publish(StructuredEvent)`
assigns the next sequence number for the project and delivers to every
current subscriber. -/
structure RelayState where
  nextSeq : String → Nat
  log : List (String × Nat)

/-- Modelled from the spec: `publish` assigns the project's next sequence
number at emission time, appends the event to the delivery log and bumps
the project's counter. -/
def publish (st : RelayState) (pid : String) : RelayState × Nat :=
  let s := st.nextSeq pid
  ({ nextSeq := fun p => if p = pid then s + 1 else st.nextSeq p,
     log := st.log ++ [(pid, s)] }, s)

/-- Modelled from the spec: the relay before any event was published. -/
def initRelay : RelayState :=
  { nextSeq := fun _ => 0, log := [] }

/-- Run a sequence of publishes, one project identifier per event. -/
def runPublishes (st : RelayState) : List String → RelayState
  | [] => st
  | p :: ps => runPublishes (publish st p).1 ps

/-- The sequence numbers a subscriber of project `pid` observes over the
lifetime of one subscription: the project's events in delivery order. -/
def projSeqs (st : RelayState) (pid : String) : List Nat :=
  (st.log.filter (fun e => e.1 = pid)).map Prod.snd

/-! ## Project State Machine (modelled from the spec)

The state machine implementation is not among the provided source files;
the model below follows spec §4.3 / §3. -/

/-- Modelled from the spec: project lifecycle status, spec §4.3:
`Initializing → Active → Generating ⇄ Active → Error → (Active|Terminated)`. -/
inductive PStatus
  | initializing
  | active
  | generating
  | error
  | terminated
deriving DecidableEq

/-- Modelled from the spec: a Session record — identifier and whether it is
terminal (superseded sessions are terminal and immutable, spec §3). -/
structure Sess where
  sid : Nat
  terminal : Bool
deriving DecidableEq

/-- Modelled from the spec: a project as the state machine sees it — its
status, its sessions so far and a fresh-session counter. -/
structure PState where
  status : PStatus
  sessions : List Sess
  nextSid : Nat
deriving DecidableEq

/-- Modelled from the spec: the commands the state machine handles —
finishing initialization, a user prompt, the end of the agent session
(success flag), an explicit cancel, a retry from `Error` and closing the
project. -/
inductive Cmd
  | activate
  | prompt
  | sessionEnded (ok : Bool)
  | cancel
  | retry
  | close
deriving DecidableEq

/-- Modelled from the spec: the error taxonomy entry for rejected
state-machine calls (spec §7): rejected synchronously, no state change. -/
inductive TransError
  | invalidTransition
deriving DecidableEq

/-- Mark every session of the project terminal. -/
def endAll (ss : List Sess) : List Sess :=
  ss.map (fun s => { s with terminal := true })

/-- Modelled from the spec: one transition of the Project State Machine
(spec §4.3). A prompt is accepted only when the project is idle (`Active`),
spawning one fresh non-terminal session and moving to `Generating`; only
`SessionEnded` or an explicit cancel leaves `Generating`; `retry` leaves
`Error`; `close` is accepted from every state but `Terminated`. Every other
attempt fails with `InvalidTransition` and returns no new state. -/
def step (st : PState) : Cmd → Except TransError PState
  | .activate =>
    match st.status with
    | .initializing => .ok { st with status := .active }
    | _ => .error .invalidTransition
  | .prompt =>
    match st.status with
    | .active =>
      .ok { status := .generating,
            sessions := st.sessions ++ [⟨st.nextSid, false⟩],
            nextSid := st.nextSid + 1 }
    | _ => .error .invalidTransition
  | .sessionEnded ok =>
    match st.status with
    | .generating =>
      .ok { status := if ok then .active else .error,
            sessions := endAll st.sessions, nextSid := st.nextSid }
    | _ => .error .invalidTransition
  | .cancel =>
    match st.status with
    | .generating =>
      .ok { status := .active, sessions := endAll st.sessions, nextSid := st.nextSid }
    | _ => .error .invalidTransition
  | .retry =>
    match st.status with
    | .error => .ok { st with status := .active }
    | _ => .error .invalidTransition
  | .close =>
    match st.status with
    | .terminated => .error .invalidTransition
    | _ => .ok { status := .terminated, sessions := endAll st.sessions, nextSid := st.nextSid }

/-- Apply one command, leaving the state untouched when the transition is
rejected (spec §4.3: invalid attempts are surfaced without mutating state). -/
def applyCmd (st : PState) (c : Cmd) : PState :=
  match step st c with
  | .ok st2 => st2
  | .error _ => st

/-- Run a command sequence from a state. -/
def runCmds (st : PState) : List Cmd → PState
  | [] => st
  | c :: cs => runCmds (applyCmd st c) cs

/-- A freshly created project: `Initializing`, no session yet (spec §3). -/
def initP : PState :=
  { status := .initializing, sessions := [], nextSid := 0 }

/-- Number of non-terminal sessions of a project. -/
def liveCount (st : PState) : Nat :=
  (st.sessions.filter (fun s => !s.terminal)).length

/-- The inductive invariant of the machine: at most one live session, and
none at all outside `Generating`. -/
def MachineInv (st : PState) : Prop :=
  liveCount st ≤ 1 ∧ (st.status ≠ .generating → liveCount st = 0)

/-- Soundness of the port search: a returned port is at or above the start,
is available, and every port strictly below it (and at or above the start)
was probed and found busy. -/
theorem findAvailablePort_sound (avail : Int → Bool) :
    ∀ (fuel : Nat) (p r : Int), findAvailablePort avail fuel p = some r →
      p ≤ r ∧ avail r = true ∧ ∀ x : Int, p ≤ x → x < r → avail x = false := by
  intro fuel
  induction fuel with
  | zero => intro p r h; simp [findAvailablePort] at h
  | succ n ih =>
    intro p r h
    by_cases hp : avail p = true
    · simp [findAvailablePort, hp] at h
      subst h
      refine ⟨le_refl _, hp, ?_⟩
      intro x hx1 hx2
      omega
    · simp [findAvailablePort, hp] at h
      obtain ⟨h1, h2, h3⟩ := ih (p + 1) r h
      refine ⟨by omega, h2, ?_⟩
      intro x hx1 hx2
      rcases eq_or_lt_of_le hx1 with heq | hlt
      · subst heq; simpa using hp
      · exact h3 x (by omega) hx2

/-- Termination of the port search: if the port `p + n` is available, fuel
`n + 1` suffices for the loop starting at `p` to return some port. -/
theorem findAvailablePort_complete (avail : Int → Bool) :
    ∀ (n : Nat) (p : Int), avail (p + n) = true →
      ∃ r, findAvailablePort avail (n + 1) p = some r := by
  intro n
  induction n with
  | zero =>
    intro p hp
    simp at hp
    exact ⟨p, by simp [findAvailablePort, hp]⟩
  | succ m ih =>
    intro p hp
    by_cases h : avail p = true
    · exact ⟨p, by simp [findAvailablePort, h]⟩
    · have hp' : avail (p + 1 + m) = true := by
        have : p + 1 + (m : Int) = p + ((m : Nat) + 1 : Nat) := by push_cast; ring
        rw [this]; exact hp
      obtain ⟨r, hr⟩ := ih (p + 1) hp'
      exact ⟨r, by simp [findAvailablePort, h]; exact hr⟩

/-- A port returned by a `setupEnvironment` selection step probes available. -/
theorem selectPort_sound (avail : Int → Bool) (fuel : Nat) (s r : Int)
    (h : selectPort avail fuel s = some r) : avail r = true := by
  by_cases hs : avail s = true
  · simp [selectPort, hs] at h
    subst h; exact hs
  · simp [selectPort, hs] at h
    exact (findAvailablePort_sound avail fuel s r h).2.1

/-- A (non-`NaN`) port returned by the `NaN`-aware selection probes available. -/
theorem selectPortJS_sound (avail : Int → Bool) (fuel : Nat) (s : Option Int) (r : Int)
    (h : selectPortJS avail fuel s = some r) : avail r = true := by
  match s with
  | some v => exact selectPort_sound avail fuel v r h
  | none => simp [selectPortJS] at h

/-- C1. Port allocation returns the smallest free port at or above the
starting port: whenever some port `q ≥ p` is available, `findAvailablePort`
starting at `p` terminates (fuel `(q - p).toNat + 1` suffices) and returns
the least available port at or above `p` — every port below the result was
probed in increasing order and found busy. -/
theorem c1_port_search_least (avail : Int → Bool) (p q : Int)
    (hpq : p ≤ q) (hq : avail q = true) :
    ∃ r, findAvailablePort avail ((q - p).toNat + 1) p = some r ∧
      p ≤ r ∧ r ≤ q ∧ avail r = true ∧
      ∀ x : Int, p ≤ x → x < r → avail x = false := by
  have hq' : avail (p + ((q - p).toNat : Int)) = true := by
    have : p + ((q - p).toNat : Int) = q := by omega
    rw [this]; exact hq
  obtain ⟨r, hr⟩ := findAvailablePort_complete avail ((q - p).toNat) p hq'
  obtain ⟨h1, h2, h3⟩ := findAvailablePort_sound avail _ p r hr
  refine ⟨r, hr, h1, ?_, h2, h3⟩
  by_contra hlt
  push_neg at hlt
  have := h3 q hpq hlt
  rw [hq] at this
  exact Bool.true_eq_false.mp this

/-- Witness for C1 at a concrete input: start 3000, every port below 3003
busy, 3003 free. -/
theorem c1_port_search_least_witness :
    ∃ r, findAvailablePort (fun n => decide ((3003 : Int) ≤ n))
        (((3003 : Int) - 3000).toNat + 1) 3000 = some r ∧
      (3000 : Int) ≤ r ∧ r ≤ 3003 ∧ (fun n => decide ((3003 : Int) ≤ n)) r = true ∧
      ∀ x : Int, 3000 ≤ x → x < r → (fun n => decide ((3003 : Int) ≤ n)) x = false :=
  c1_port_search_least (fun n => decide ((3003 : Int) ≤ n)) 3000 3003
    (by decide) (by decide)

/-- C2, counterexample. The claim says that when no free port exists within
the configured range, allocation fails with `PortExhausted` rather than
succeeding or scanning past the range. The code has no configured range and
no error exit: with every port of any range near the start busy (here only
port 3010 is free anywhere), `findAvailablePort(3000)` scans straight past
the range and succeeds with 3010. -/
theorem c2_port_exhausted_counterexample :
    findAvailablePort (fun n => decide (n = (3010 : Int))) 11 3000 = some 3010 := by
  decide

/-- C2, amended: `findAvailablePort` has no configured upper bound and no
`PortExhausted` (or any other) error value; when ports in a finite range
are busy but a higher one is free it succeeds with the higher port, and
when no port at or above the start is free it simply never terminates — the
fueled embedding returns `none` for every fuel. -/
theorem c2_no_port_exhausted (avail : Int → Bool) (p : Int)
    (h : ∀ q : Int, p ≤ q → avail q = false) :
    ∀ fuel, findAvailablePort avail fuel p = none := by
  suffices haux : ∀ fuel (p' : Int), p ≤ p' → findAvailablePort avail fuel p' = none by
    intro fuel; exact haux fuel p (le_refl p)
  intro fuel
  induction fuel with
  | zero => intro p' _; rfl
  | succ n ih =>
    intro p' hp'
    have hb : avail p' = false := h p' hp'
    simp [findAvailablePort, hb]
    exact ih (p' + 1) (by omega)

/-- Witness for C2's amended statement: no port is ever available, the
search makes no progress for any amount of fuel. -/
theorem c2_no_port_exhausted_witness :
    findAvailablePort (fun _ => false) 7 3000 = none :=
  c2_no_port_exhausted (fun _ => false) 3000 (fun _ _ => rfl) 7

/-- C3, counterexample. With ports 3000–3002 occupied and 3003 free, the
allocator does assign 3003 — but a second simultaneous request (same
availability snapshot, the first port not yet bound, nothing recorded in
any allocation table) receives the very same port 3003, not a different
non-colliding one: both components of `selectPorts` starting at 3000 are
`some 3003`. -/
theorem c3_simultaneous_counterexample :
    selectPorts (fun n => decide ((3003 : Int) ≤ n)) 10 (some 3000) (some 3000)
      = (some 3003, some 3003) := by
  decide

/-- C3, amended: with 3000–3002 occupied the allocator assigns 3003, the
next free port; but allocation is a pure probe of OS availability with no
allocation table, so a second request probing the same snapshot receives
the same port, and it receives a different port exactly when its probe
already observes the first selected port as bound. -/
theorem c3_next_free_and_rebind (avail avail2 : Int → Bool) (f f2 : Nat) (r1 r2 : Int)
    (hbelow : ∀ x : Int, 3000 ≤ x → x < 3003 → avail x = false)
    (hfree : avail 3003 = true)
    (hr1 : selectPort avail f 3000 = some r1)
    (hbusy : avail2 r1 = false)
    (hr2 : selectPort avail2 f2 3000 = some r2) :
    r1 = 3003 ∧ r2 ≠ r1 := by
  have h3000 : avail 3000 = false := hbelow 3000 (by omega) (by omega)
  rw [selectPort, h3000] at hr1
  simp at hr1
  obtain ⟨hg1, hg2, hg3⟩ := findAvailablePort_sound avail f 3000 r1 hr1
  have hr1lo : (3003 : Int) ≤ r1 := by
    by_contra hc
    push_neg at hc
    have := hbelow r1 hg1 hc
    rw [hg2] at this
    exact Bool.true_eq_false.mp this
  have hr1eq : r1 = 3003 := by
    rcases eq_or_lt_of_le hr1lo with heq | hlt
    · omega
    · have := hg3 3003 (by omega) hlt
      rw [hfree] at this
      exact absurd this (by simp)
  refine ⟨hr1eq, ?_⟩
  intro hcontra
  have := selectPort_sound avail2 f2 3000 r2 hr2
  rw [hcontra, hbusy] at this
  exact Bool.false_eq_true.mp this

/-- Witness for C3's amended statement: first request sees 3000–3002 busy
and gets 3003; the second request's probe sees 3003 bound too and gets a
different port (3004). -/
theorem c3_next_free_and_rebind_witness : (3003 : Int) = 3003 ∧ (3004 : Int) ≠ 3003 :=
  c3_next_free_and_rebind (fun n => decide ((3003 : Int) ≤ n))
    (fun n => decide ((3004 : Int) ≤ n)) 10 10 3003 3004
    (by intro x h1 h2; simpa using (by omega : ¬ (3003 : Int) ≤ x))
    (by decide) (by decide) (by decide) (by decide)

/-- C4, counterexample. The claim says concurrently allocated ports are
pairwise distinct. Running the actual `setupEnvironment` pipeline on a
`.env` recording `API_PORT=5000` and `WEB_PORT=5000` with port 5000 free,
both selections— two allocation requests against one availability state —
return the same port 5000. -/
theorem c4_distinct_ports_counterexample :
    setupPorts (fun _ => true) 1 true "API_PORT=5000\nWEB_PORT=5000"
      = (some 5000, some 5000) := by
  decide

/-- C4, amended: `setupEnvironment` keeps no table of live allocations and
probes only OS availability, so two selections against one availability
snapshot can coincide; the two returned ports are guaranteed distinct
exactly when the second selection's probe observes the first selected port
as already bound. -/
theorem c4_distinct_when_rebound (avail avail2 : Int → Bool) (f f2 : Nat)
    (s1 s2 : Option Int) (r1 r2 : Int)
    (_h1 : selectPortJS avail f s1 = some r1)
    (hbusy : avail2 r1 = false)
    (h2 : selectPortJS avail2 f2 s2 = some r2) :
    r1 ≠ r2 := by
  intro hcontra
  have := selectPortJS_sound avail2 f2 s2 r2 h2
  rw [← hcontra, hbusy] at this
  exact Bool.false_eq_true.mp this

/-- Witness for C4's amended statement: the second probe sees the first
port (5000) as bound and selects 5001 instead. -/
theorem c4_distinct_when_rebound_witness : (5000 : Int) ≠ 5001 :=
  c4_distinct_when_rebound (fun n => decide (n = (5000 : Int)))
    (fun n => decide (n = (5001 : Int))) 1 2 (some 5000) (some 5000) 5000 5001
    (by decide) (by decide) (by decide)

/-- Publishing for project `p` appends `p`'s current counter to `p`'s
observed sequence list and leaves every other project's list unchanged. -/
theorem projSeqs_publish (st : RelayState) (p pid : String) :
    projSeqs (publish st p).1 pid
      = if p = pid then projSeqs st pid ++ [st.nextSeq p] else projSeqs st pid := by
  by_cases h : p = pid
  · subst h
    simp [projSeqs, publish, List.filter_append]
  · simp [projSeqs, publish, List.filter_append, h]

/-- Publishing for project `p` bumps `p`'s counter and no other. -/
theorem nextSeq_publish (st : RelayState) (p pid : String) :
    ((publish st p).1).nextSeq pid
      = if pid = p then st.nextSeq p + 1 else st.nextSeq pid := by
  simp [publish]

/-- The relay invariant: each project's observed sequence list is exactly
`0, 1, …, counter − 1`. -/
def RelayInv (st : RelayState) : Prop :=
  ∀ pid, projSeqs st pid = List.range (st.nextSeq pid)

/-- `publish` preserves the relay invariant. -/
theorem publish_relayInv (st : RelayState) (p : String) (h : RelayInv st) :
    RelayInv (publish st p).1 := by
  intro pid
  rw [projSeqs_publish, nextSeq_publish]
  by_cases hp : p = pid
  · subst hp
    simp [h p, List.range_succ]
  · have hp2 : ¬ pid = p := fun h2 => hp h2.symm
    simp [hp, hp2, h pid]

/-- Any run of publishes preserves the relay invariant. -/
theorem runPublishes_relayInv :
    ∀ (ops : List String) (st : RelayState), RelayInv st →
      RelayInv (runPublishes st ops) := by
  intro ops
  induction ops with
  | nil => intro st h; exact h
  | cons p ps ih =>
    intro st h
    exact ih (publish st p).1 (publish_relayInv st p h)

/-- C5. Sequence numbers are assigned by the relay at emission time from a
per-project counter: after any run of publishes from the initial relay
state, the sequence numbers a subscriber of any project observes over the
lifetime of one subscription are exactly `0, 1, …, n − 1` for the project's
counter `n` — a strictly increasing, gap-free series in which no number is
ever reused. -/
theorem c5_relay_sequence_numbers (ops : List String) (pid : String) :
    projSeqs (runPublishes initRelay ops) pid
        = List.range ((runPublishes initRelay ops).nextSeq pid) ∧
      (projSeqs (runPublishes initRelay ops) pid).Nodup ∧
      (projSeqs (runPublishes initRelay ops) pid).Pairwise (· < ·) := by
  have hinv : RelayInv (runPublishes initRelay ops) := by
    refine runPublishes_relayInv ops initRelay ?_
    intro q
    simp [projSeqs, initRelay]
  refine ⟨hinv pid, ?_, ?_⟩
  · rw [hinv pid]; exact List.nodup_range _
  · rw [hinv pid]; exact List.pairwise_lt_range _

/-- Ending every session leaves no live one. -/
theorem filter_endAll (ss : List Sess) :
    (endAll ss).filter (fun s => !s.terminal) = [] := by
  induction ss with
  | nil => rfl
  | cons a l ih =>
    simp only [endAll, List.map_cons, List.filter_cons] at ih ⊢
    simp only [Bool.not_true, Bool.false_eq_true, if_false]
    exact ih

/-- Every single state-machine step — including rejected ones, which leave
the state untouched — preserves the machine invariant. -/
theorem applyCmd_machineInv (st : PState) (c : Cmd) (h : MachineInv st) :
    MachineInv (applyCmd st c) := by
  obtain ⟨hle, hzero⟩ := h
  cases c with
  | activate =>
    cases hst : st.status <;>
      simp_all [applyCmd, step, MachineInv, liveCount]
  | prompt =>
    cases hst : st.status <;>
      simp_all [applyCmd, step, MachineInv, liveCount, List.filter_append]
  | sessionEnded ok =>
    cases hst : st.status <;>
      cases ok <;>
        simp_all [applyCmd, step, MachineInv, liveCount, filter_endAll]
  | cancel =>
    cases hst : st.status <;>
      simp_all [applyCmd, step, MachineInv, liveCount, filter_endAll]
  | retry =>
    cases hst : st.status <;>
      simp_all [applyCmd, step, MachineInv, liveCount]
  | close =>
    cases hst : st.status <;>
      simp_all [applyCmd, step, MachineInv, liveCount, filter_endAll]

/-- Any command run preserves the machine invariant. -/
theorem runCmds_machineInv :
    ∀ (cmds : List Cmd) (st : PState), MachineInv st → MachineInv (runCmds st cmds) := by
  intro cmds
  induction cmds with
  | nil => intro st h; exact h
  | cons c cs ih =>
    intro st h
    exact ih (applyCmd st c) (applyCmd_machineInv st c h)

/-- C6. At most one non-terminal session per project at every reachable
state: starting from a fresh project, after any sequence of state-machine
commands the number of non-terminal sessions is at most one — every
operation of the Project State Machine preserves the invariant. -/
theorem c6_at_most_one_live_session (cmds : List Cmd) :
    liveCount (runCmds initP cmds) ≤ 1 := by
  have hinit : MachineInv initP := by
    constructor
    · simp [initP, liveCount]
    · intro _; simp [initP, liveCount]
  exact (runCmds_machineInv cmds initP hinit).1

/-- C8. Sending a prompt while the project is `Generating` fails
synchronously with `InvalidTransition`: the step returns the error (so no
new session is created — the ok-branch that appends a session is never
reached) and applying the command leaves the project state, its session
list included, exactly unchanged. -/
theorem c8_prompt_while_generating (st : PState) (h : st.status = .generating) :
    step st .prompt = .error .invalidTransition ∧ applyCmd st .prompt = st := by
  constructor
  · simp [step, h]
  · simp [applyCmd, step, h]

/-- Witness for C8 at a concrete `Generating` state with one live session. -/
theorem c8_prompt_while_generating_witness :
    step { status := .generating, sessions := [⟨0, false⟩], nextSid := 1 } .prompt
        = .error .invalidTransition ∧
      applyCmd { status := .generating, sessions := [⟨0, false⟩], nextSid := 1 } .prompt
        = { status := .generating, sessions := [⟨0, false⟩], nextSid := 1 } :=
  c8_prompt_while_generating
    { status := .generating, sessions := [⟨0, false⟩], nextSid := 1 } rfl

/-- C7, counterexample. The claim says a child exiting with a non-zero code
is automatically re-spawned (at most once, then `Error` state after a
second failure in the cooldown window). On the first non-zero exit —
concretely exit code 1 — the `dev.js` handler spawns nothing and instead
terminates the wrapper itself with the same code: no re-spawn ever happens,
and no cooldown window or `Error` state exists in the code. -/
theorem c7_restart_counterexample :
    handleChildExit (some 1) = { exitCode := some 1, respawned := false } := by
  decide

/-- C7, amended: the `dev.js` exit handler never re-spawns the child. A
non-zero, non-null exit code makes the wrapper exit immediately with that
same code; a zero or null exit code is ignored. There is no restart count,
no cooldown window and no `Error` state. -/
theorem c7_no_auto_restart (c : Int) (h : c ≠ 0) :
    handleChildExit (some c) = { exitCode := some c, respawned := false } ∧
      handleChildExit (some 0) = { exitCode := none, respawned := false } ∧
      handleChildExit none = { exitCode := none, respawned := false } := by
  refine ⟨?_, rfl, rfl⟩
  simp [handleChildExit, h]

/-- Witness for C7's amended statement at exit code 2. -/
theorem c7_no_auto_restart_witness :
    handleChildExit (some 2) = { exitCode := some 2, respawned := false } ∧
      handleChildExit (some 0) = { exitCode := none, respawned := false } ∧
      handleChildExit none = { exitCode := none, respawned := false } :=
  c7_no_auto_restart 2 (by decide)

/-- C9. Existing configuration takes precedence over defaults: whenever the
`.env` file exists and its parsed contents hold an `API_PORT` (resp.
`WEB_PORT`) entry — a key with a nonempty value, which is what the script's
truthiness test treats as present — the starting candidate port is
`parseInt` of that value instead of the default 8080 (resp. 3000), and the
default is used exactly when the entry is absent. -/
theorem c9_env_overrides_defaults (content : String) :
    (∀ v, envGetTruthy (parseEnv content) "API_PORT".toList = some v →
        initialApiPort true content = jsParseInt v) ∧
      (envGetTruthy (parseEnv content) "API_PORT".toList = none →
        initialApiPort true content = some 8080) ∧
      (∀ v, envGetTruthy (parseEnv content) "WEB_PORT".toList = some v →
        initialWebPort true content = jsParseInt v) ∧
      (envGetTruthy (parseEnv content) "WEB_PORT".toList = none →
        initialWebPort true content = some 3000) := by
  refine ⟨?_, ?_, ?_, ?_⟩
  · intro v hv
    unfold initialApiPort
    rw [if_pos rfl, hv]
  · intro hv
    unfold initialApiPort
    rw [if_pos rfl, hv]
  · intro v hv
    unfold initialWebPort
    rw [if_pos rfl, hv]
  · intro hv
    unfold initialWebPort
    rw [if_pos rfl, hv]

/-- Witness for C9 on a concrete `.env` body: recorded ports 9001 and 4321
are used instead of the defaults. -/
theorem c9_env_overrides_defaults_witness :
    initialApiPort true "API_PORT=9001\nWEB_PORT=4321" = some 9001 ∧
      initialWebPort true "API_PORT=9001\nWEB_PORT=4321" = some 4321 :=
  ⟨((c9_env_overrides_defaults "API_PORT=9001\nWEB_PORT=4321").1
      "9001".toList (by decide)).trans (by decide),
    ((c9_env_overrides_defaults "API_PORT=9001\nWEB_PORT=4321").2.2.1
      "4321".toList (by decide)).trans (by decide)⟩

/-- C10. If the `.env` file exists and its recorded `API_PORT` and
`WEB_PORT` both parse to the finally selected ports — where "parse" is the
rewrite guard's own radix-free `parseInt`, which accepts hex-prefixed
values and on those differs from the radix-10 parse that produced the
starting candidates — `setupEnvironment` does not rewrite `.env` (first
component `false`), while the web-side `.env.local` is written on every
run regardless (second component `true`). -/
theorem c10_env_file_frame (env : List (List Char × List Char)) (a b : Int)
    (hA : jsParseIntAutoOpt (envGet env "API_PORT".toList) = some a)
    (hB : jsParseIntAutoOpt (envGet env "WEB_PORT".toList) = some b) :
    setupEnvWrites true env (some a) (some b) = (false, true) := by
  unfold setupEnvWrites shouldRewriteEnv
  rw [hA, hB]
  simp [jsStrictNeqNum]

/-- Witness for C10 on a concrete parsed `.env` whose recorded ports equal
the selected ones. -/
theorem c10_env_file_frame_witness :
    setupEnvWrites true (parseEnv "API_PORT=8080\nWEB_PORT=3000")
      (some 8080) (some 3000) = (false, true) :=
  c10_env_file_frame (parseEnv "API_PORT=8080\nWEB_PORT=3000") 8080 3000
    (by decide) (by decide)
